import Mathlib

/-!
Verification of the HealthSync front-end rendering core.

Shallow embedding of the repository's presentation layer:
* `ProgressTracker` (progress.js): metric renderers for weight,
  blood pressure, goal progress and the consolidated health report;
* the health-consultation module (correlations table, health-tips cache);
* the server-side `formatResponse` markdown formatter;
* the client-side auth module (`encrypt` / `decrypt` / `checkAuth`).

JavaScript strings are modelled by Lean `String` / `List Char`; the
character codes handled by `charCodeAt` / `fromCharCode` are modelled by
`Nat`.  Numeric payload fields that the code only ever interpolates into
HTML are modelled by their display strings; the one field whose numeric
value matters to a claim (`progress_percentage`) is modelled as `Int`.
Optional / nullable JSON fields are modelled by `Option`; DOM surfaces
are modelled by the strings assigned to their `innerHTML`.
-/

namespace HealthSync

/-- Wrapper the code writes to a surface on a domain-level failure:
`<div class="alert alert-info">MESSAGE</div>` (progress.js, used by
`loadWeightTrend`, `loadBloodPressureTrend`, `renderGoalProgress`,
`renderHealthReport`). -/
def failureView (msg : String) : String :=
  "<div class=\"alert alert-info\">" ++ msg ++ "</div>"

/-- Substring test on character lists: does `tok` occur contiguously in
the list?  Used to state the "contains no chart / no insights" parts of
the error-handling claims. -/
def hasSub (tok : List Char) : List Char → Bool
  | [] => tok.isEmpty
  | c :: rest => tok.isPrefixOf (c :: rest) || hasSub tok rest

/-- Own properties of the blood-pressure `categoryMap` object literal
of `renderBloodPressureInsights` / `renderHealthReport` (progress.js):
an exact-match lookup over six keys.  A JS bracket lookup additionally
consults the prototype chain; `bpCategoryLabelJs` below adds that
layer. -/
def categoryMap (k : String) : Option String :=
  if k = "normal" then some "Normal"
  else if k = "elevated" then some "Elevated"
  else if k = "hypertension_stage_1" then some "Hypertension Stage 1"
  else if k = "hypertension_stage_2" then some "Hypertension Stage 2"
  else if k = "hypertensive_crisis" then some "Hypertensive Crisis"
  else if k = "unknown" then some "Unknown"
  else none

/-- The expression `categoryMap[data.category] || data.category`
restricted to own properties: the original key is echoed when the own
lookup misses.  Faithful for every key that is not an
`Object.prototype` member name, which covers the data contract's
category codes; the renderers below interpolate this value. -/
def bpCategoryLabel (k : String) : String :=
  (categoryMap k).getD k

/-- The `goalTypeMap` object literal of `renderGoalProgress`. -/
def goalTypeMap (k : String) : Option String :=
  if k = "weight" then some "Weight"
  else if k = "blood_sugar" then some "Blood Sugar"
  else if k = "blood_pressure" then some "Blood Pressure"
  else none

/-- `goalTypeMap[data.goal_type] || data.goal_type`. -/
def goalTypeLabel (k : String) : String :=
  (goalTypeMap k).getD k

/-- `s.charAt(0).toUpperCase() + s.slice(1)` as used for trend labels. -/
def capitalizeFirst (s : String) : String :=
  match s.data with
  | [] => ""
  | c :: rest => String.mk (c.toUpper :: rest)

/-- Goal-progress payload (`/goal-progress` response).  Fields the code
only interpolates are display strings; `progress_percentage`, whose
clamping behaviour claim C2 is about, is an integer. -/
structure GoalProgressData where
  status : String
  message : String
  goal_type : String
  target_value : String
  initial_value : String
  current_value : String
  progress_percentage : Int
  insights : List String

/-- The `<li>` items of an insights list (`data.insights.forEach`). -/
def insightItems : List String → String
  | [] => ""
  | i :: rest => "<li>" ++ i ++ "</li>" ++ insightItems rest

/-- The `Insights:` block: rendered only when the list is non-empty
(`if (data.insights && data.insights.length > 0)`). -/
def insightsBlock (insights : List String) : String :=
  if insights.isEmpty then ""
  else "<h5>Insights:</h5><ul>" ++ insightItems insights ++ "</ul>"

/-- The visible progress-bar label `${data.progress_percentage}%` of
`renderGoalProgress`. -/
def progressLabel (p : Int) : String :=
  toString p ++ "%"

/-- The progress-bar markup of `renderGoalProgress` (progress.js
lines 433-437), interpolating the raw `progress_percentage`. -/
def progressBarHtml (p : Int) : String :=
  "<div class=\"progress\" style=\"height: 25px;\">"
  ++ "<div class=\"progress-bar\" role=\"progressbar\" style=\"width: "
  ++ toString p ++ "%\" "
  ++ "aria-valuenow=\"" ++ toString p
  ++ "\" aria-valuemin=\"0\" aria-valuemax=\"100\">"
  ++ progressLabel p ++ "</div></div>"
  ++ "<p class=\"mt-2\"></p>"

/-- `renderGoalProgress` (progress.js lines 412-454): on success a card
with goal fields, the progress bar and an optional insights block; on
any other status only the message alert. -/
def renderGoalProgress (d : GoalProgressData) : String :=
  if d.status = "success" then
    "<div class=\"card\"><div class=\"card-header\">Goal Progress</div><div class=\"card-body\">"
    ++ "<p><strong>Goal Type:</strong> " ++ goalTypeLabel d.goal_type ++ "</p>"
    ++ "<p><strong>Target Value:</strong> " ++ d.target_value ++ "</p>"
    ++ "<p><strong>Initial Value:</strong> " ++ d.initial_value ++ "</p>"
    ++ "<p><strong>Current Value:</strong> " ++ d.current_value ++ "</p>"
    ++ progressBarHtml d.progress_percentage
    ++ insightsBlock d.insights
    ++ "</div></div>"
  else failureView d.message

/-- Modelled from the spec: the same renderer with the supplied
percentage clamped into [0,100] before display, as §4.3 of the spec
("must clamp/display 0-100") demands.  Compared against the source
renderer to settle claim C2. -/
def renderGoalProgressClamped (d : GoalProgressData) : String :=
  renderGoalProgress { d with progress_percentage := max 0 (min 100 d.progress_percentage) }

end HealthSync

namespace HealthSync

/-- Number of occurrences of a character in a string. -/
def countChar (c : Char) (s : String) : Nat :=
  s.data.count c

/-- Concrete goal payload whose upstream percentage exceeds 100. -/
def goalPayload150 : GoalProgressData :=
  ⟨"success", "", "weight", "70", "80", "75", 150, []⟩

/-- Concrete in-range goal payload. -/
def goalPayload40 : GoalProgressData :=
  ⟨"success", "", "weight", "70", "80", "76", 40, []⟩

set_option maxRecDepth 8192 in
/-- Claim C2, counterexample: at a supplied percentage of 150 the
renderer's output differs from the clamped rendering the claim
describes — `renderGoalProgress` interpolates the raw value, so the bar
displays `150%`, not the clamp to 100. -/
theorem renderGoalProgress_not_clamped :
    renderGoalProgress goalPayload150 ≠ renderGoalProgressClamped goalPayload150 := by
  decide

/-- Claim C2 (amended): for every success payload the renderer displays
the supplied progress percentage verbatim; when the supplied value
already lies in [0,100] (the data-model invariant) this coincides with
the clamped display, and the visible progress label carries the `%`
suffix exactly once. -/
theorem renderGoalProgress_raw_percentage (d : GoalProgressData)
    (hs : d.status = "success")
    (h0 : 0 ≤ d.progress_percentage) (h1 : d.progress_percentage ≤ 100) :
    renderGoalProgress d = renderGoalProgressClamped d ∧
    countChar '%' (progressLabel d.progress_percentage) = 1 := by
  constructor
  · have hcl : max 0 (min 100 d.progress_percentage) = d.progress_percentage := by omega
    rw [renderGoalProgressClamped, hcl]
  · have key : ∀ p : Int, 0 ≤ p → p ≤ 100 →
        countChar '%' (progressLabel p) = 1 := by
      intro p hp0 hp1
      interval_cases p <;> decide
    exact key _ h0 h1

/-- Witness for the amended C2 at a concrete in-range payload. -/
theorem renderGoalProgress_raw_percentage_witness :
    renderGoalProgress goalPayload40 = renderGoalProgressClamped goalPayload40 ∧
    countChar '%' (progressLabel goalPayload40.progress_percentage) = 1 :=
  renderGoalProgress_raw_percentage goalPayload40 rfl (by decide) (by decide)

/-- The six recognised blood-pressure category codes. -/
def bpCategoryKeys : List String :=
  ["normal", "elevated", "hypertension_stage_1",
   "hypertension_stage_2", "hypertensive_crisis", "unknown"]

/-- Property names every object literal inherits from
`Object.prototype` (including the Annex B accessor methods): a bracket
lookup `categoryMap[k]` on these keys finds the inherited member, not
`undefined`. -/
def objectPrototypeKeys : List String :=
  ["constructor", "hasOwnProperty", "isPrototypeOf", "propertyIsEnumerable",
   "toLocaleString", "toString", "valueOf", "__proto__",
   "__defineGetter__", "__defineSetter__", "__lookupGetter__", "__lookupSetter__"]

/-- Template-literal stringification of the inherited member: the
members are native functions, rendered by hosts as
`function NAME() { [native code] }`, except `__proto__`, whose getter
returns `Object.prototype` itself, rendered `[object Object]`. -/
def inheritedDisplay (k : String) : String :=
  if k = "__proto__" then "[object Object]"
  else "function " ++ k ++ "() \x7b [native code] \x7d"

/-- The full JS evaluation of
`categoryMap[data.category] || data.category` (part_000 line 368): an
own property of the object literal yields its label; otherwise the
bracket lookup consults the prototype chain, and an inherited
`Object.prototype` member — always truthy — suppresses the `||`
fallback and is stringified by the template literal; only a key found
nowhere yields `undefined` and echoes. -/
def bpCategoryLabelJs (k : String) : String :=
  match categoryMap k with
  | some label => label
  | none => if k ∈ objectPrototypeKeys then inheritedDisplay k else k

/-- Claim C4, counterexample: the mapper does not echo every
unrecognized key — `categoryMap['toString']` finds the truthy
`Object.prototype.toString` inherited by the object literal, so the
`||` fallback never fires and the function's stringification is
rendered instead of the key. -/
theorem bpCategoryLabel_prototype_leak :
    bpCategoryLabelJs "toString" ≠ "toString" := by
  decide

/-- Claim C4 (amended): the mapper is a case-sensitive exact-match
lookup sending the six known codes to their spaced title-cased labels;
a key that is neither one of the six nor an `Object.prototype` member
name (for example `foo` or `Normal`) echoes unchanged without
crashing; the inherited member names are not echoed — their truthy
inherited values are rendered instead. -/
theorem bpCategoryLabelJs_spec :
    bpCategoryLabelJs "normal" = "Normal" ∧
    bpCategoryLabelJs "elevated" = "Elevated" ∧
    bpCategoryLabelJs "hypertension_stage_1" = "Hypertension Stage 1" ∧
    bpCategoryLabelJs "hypertension_stage_2" = "Hypertension Stage 2" ∧
    bpCategoryLabelJs "hypertensive_crisis" = "Hypertensive Crisis" ∧
    bpCategoryLabelJs "unknown" = "Unknown" ∧
    (∀ k : String, k ∉ bpCategoryKeys → k ∉ objectPrototypeKeys →
      bpCategoryLabelJs k = k) ∧
    (∀ k : String, k ∈ objectPrototypeKeys → bpCategoryLabelJs k ≠ k) := by
  refine ⟨rfl, rfl, rfl, rfl, rfl, rfl, ?_, ?_⟩
  · intro k hk hp
    simp only [bpCategoryKeys, List.mem_cons, List.not_mem_nil, or_false, not_or] at hk
    obtain ⟨h1, h2, h3, h4, h5, h6⟩ := hk
    have hcm : categoryMap k = none := by
      unfold categoryMap
      split_ifs <;> simp_all
    rw [bpCategoryLabelJs.eq_def, hcm]
    simp [hp]
  · intro k hp
    simp only [objectPrototypeKeys, List.mem_cons, List.not_mem_nil, or_false] at hp
    rcases hp with rfl | rfl | rfl | rfl | rfl | rfl | rfl | rfl | rfl | rfl | rfl | rfl <;>
      decide

/-- Witness for the amended C4: `foo` and the wrongly-cased `Normal`
echo unchanged, while `toString` does not echo. -/
theorem bpCategoryLabelJs_spec_witness :
    bpCategoryLabelJs "foo" = "foo" ∧ bpCategoryLabelJs "Normal" = "Normal" ∧
    bpCategoryLabelJs "toString" ≠ "toString" :=
  ⟨bpCategoryLabelJs_spec.2.2.2.2.2.2.1 "foo" (by decide) (by decide),
   bpCategoryLabelJs_spec.2.2.2.2.2.2.1 "Normal" (by decide) (by decide),
   bpCategoryLabelJs_spec.2.2.2.2.2.2.2 "toString" (by decide)⟩

end HealthSync

namespace HealthSync

/-- One weight measurement (`first_measurement` / `latest_measurement`). -/
structure Measurement where
  date : String
  weight_kg : String

/-- Weight-trend payload (`/weight-trend` response). -/
structure WeightTrendData where
  status : String
  message : String
  first_measurement : Option Measurement
  latest_measurement : Option Measurement
  total_change_kg : String
  percent_change : String
  weekly_change_rate_kg : String
  trend : String
  insights : List String

/-- Blood-pressure-trend payload (`/blood-pressure-trend` response). -/
structure BpTrendData where
  status : String
  message : String
  average_systolic : String
  average_diastolic : String
  min_systolic : String
  min_diastolic : String
  max_systolic : String
  max_diastolic : String
  category : String
  data_points : String
  insights : List String

/-- Chart series built by `renderWeightChart`: the first measurement is
pushed, the latest only when its date differs (`data.first_measurement.date
!== data.latest_measurement.date`), so coinciding dates give a
single-point series.  `fmtDate` stands for
`new Date(x).toLocaleDateString()`. -/
def weightChartSeries (fmtDate : String → String) (d : WeightTrendData) :
    List String × List String :=
  match d.first_measurement, d.latest_measurement with
  | some f, some l =>
      if f.date ≠ l.date then
        ([fmtDate f.date, fmtDate l.date], [f.weight_kg, l.weight_kg])
      else ([fmtDate f.date], [f.weight_kg])
  | _, _ => ([], [])

/-- `renderWeightInsights` (progress.js lines 231-258): a card whose body
shows the numeric fields, capitalized trend and optional insights list on
success, and only the message otherwise. -/
def renderWeightInsightsHtml (d : WeightTrendData) : String :=
  "<div class=\"card\"><div class=\"card-header\">Weight Insights</div><div class=\"card-body\">"
  ++ (if d.status = "success" then
        "<p><strong>Total Change:</strong> " ++ d.total_change_kg ++ " kg ("
          ++ d.percent_change ++ "%)</p>"
        ++ "<p><strong>Weekly Change Rate:</strong> " ++ d.weekly_change_rate_kg
          ++ " kg/week</p>"
        ++ "<p><strong>Trend:</strong> " ++ capitalizeFirst d.trend ++ "</p>"
        ++ insightsBlock d.insights
      else "<p>" ++ d.message ++ "</p>")
  ++ "</div></div>"

/-- The three grouped-bar datasets of `renderBloodPressureChart`
(average, min, max over systolic/diastolic). -/
def bpChartDatasets (d : BpTrendData) : List (String × List String) :=
  [("Average", [d.average_systolic, d.average_diastolic]),
   ("Min", [d.min_systolic, d.min_diastolic]),
   ("Max", [d.max_systolic, d.max_diastolic])]

/-- `renderBloodPressureInsights` (progress.js lines 349-386). -/
def renderBloodPressureInsightsHtml (d : BpTrendData) : String :=
  "<div class=\"card\"><div class=\"card-header\">Blood Pressure Insights</div><div class=\"card-body\">"
  ++ (if d.status = "success" then
        "<p><strong>Average:</strong> " ++ d.average_systolic ++ "/"
          ++ d.average_diastolic ++ " mmHg</p>"
        ++ "<p><strong>Category:</strong> " ++ bpCategoryLabel d.category ++ "</p>"
        ++ "<p><strong>Data Points:</strong> " ++ d.data_points ++ "</p>"
        ++ insightsBlock d.insights
      else "<p>" ++ d.message ++ "</p>")
  ++ "</div></div>"

/-- The two DOM surfaces written by `loadWeightTrend` /
`loadBloodPressureTrend`, plus the chart the success branch builds. -/
structure TrendSurfaces (α : Type) where
  chartHtml : String
  chartSpec : Option α
  insightsHtml : String
  deriving DecidableEq

/-- The `.then` handler of `loadWeightTrend` (progress.js lines 148-168):
on success it renders the chart and insights card; otherwise it writes
only the message alert to the chart container and clears the insights
container. -/
def loadWeightTrendView (fmtDate : String → String) (d : WeightTrendData) :
    TrendSurfaces (List String × List String) :=
  if d.status = "success" then
    ⟨"<canvas id=\"weight-chart\"></canvas>", some (weightChartSeries fmtDate d),
     renderWeightInsightsHtml d⟩
  else ⟨failureView d.message, none, ""⟩

/-- The `.then` handler of `loadBloodPressureTrend` (progress.js
lines 263-283). -/
def loadBloodPressureTrendView (d : BpTrendData) :
    TrendSurfaces (List (String × List String)) :=
  if d.status = "success" then
    ⟨"<canvas id=\"bp-chart\"></canvas>", some (bpChartDatasets d),
     renderBloodPressureInsightsHtml d⟩
  else ⟨failureView d.message, none, ""⟩

end HealthSync

namespace HealthSync

/-- Scanning for a token that starts with `t` skips any block that does
not contain `t`. -/
theorem hasSub_append_head_notin (t : Char) (tok mid rest : List Char)
    (h : t ∉ mid) :
    hasSub (t :: tok) (mid ++ rest) = hasSub (t :: tok) rest := by
  induction mid with
  | nil => rfl
  | cons c m ih =>
    simp only [List.mem_cons, not_or] at h
    have hb : (t == c) = false := by
      simp only [beq_eq_false_iff_ne, ne_eq]
      exact h.1
    simp [hasSub, List.isPrefixOf, hb, ih h.2]

/-- The failure alert adds no markup tag of its own beyond its fixed
`div` wrapper: a token `<X…` with `X ≠ d` can only occur inside the
message. -/
theorem failureView_no_tag (c2 : Char) (tr : List Char) (msg : String)
    (hmsg : '<' ∉ msg.data) (hc : (c2 == 'd') = false)
    (hsuf : hasSub ('<' :: c2 :: tr) "</div>".data = false) :
    hasSub ('<' :: c2 :: tr) (failureView msg).data = false := by
  have h1 : (failureView msg).data
      = '<' :: ("div class=\"alert alert-info\">".data ++ (msg.data ++ "</div>".data)) := by
    show ("<div class=\"alert alert-info\">" ++ msg ++ "</div>").data = _
    rw [String.data_append, String.data_append, List.append_assoc]
    rfl
  rw [h1]
  have hp : List.isPrefixOf ('<' :: c2 :: tr)
      ('<' :: ("div class=\"alert alert-info\">".data ++ (msg.data ++ "</div>".data)))
      = false := by
    have h2 : "div class=\"alert alert-info\">".data ++ (msg.data ++ "</div>".data)
        = 'd' :: ("iv class=\"alert alert-info\">".data ++ (msg.data ++ "</div>".data)) := rfl
    rw [h2]
    simp [List.isPrefixOf, hc]
  have hstep : hasSub ('<' :: c2 :: tr)
      ('<' :: ("div class=\"alert alert-info\">".data ++ (msg.data ++ "</div>".data)))
      = (List.isPrefixOf ('<' :: c2 :: tr)
          ('<' :: ("div class=\"alert alert-info\">".data ++ (msg.data ++ "</div>".data)))
        || hasSub ('<' :: c2 :: tr)
            ("div class=\"alert alert-info\">".data ++ (msg.data ++ "</div>".data))) := rfl
  rw [hstep, hp, Bool.false_or]
  rw [hasSub_append_head_notin '<' (c2 :: tr) _ _ (by decide)]
  rw [hasSub_append_head_notin '<' (c2 :: tr) _ _ hmsg]
  exact hsuf

/-- A failure alert for a tag-free message contains that message and no
chart canvas, no insights list or heading, and no bold-labelled numeric
field. -/
theorem failureView_only_message (msg : String) (hmsg : '<' ∉ msg.data) :
    msg.data <:+: (failureView msg).data ∧
    hasSub "<canvas".data (failureView msg).data = false ∧
    hasSub "<ul>".data (failureView msg).data = false ∧
    hasSub "<h5>".data (failureView msg).data = false ∧
    hasSub "<strong".data (failureView msg).data = false := by
  refine ⟨⟨"<div class=\"alert alert-info\">".data, "</div>".data, ?_⟩, ?_, ?_, ?_, ?_⟩
  · rw [failureView, String.data_append, String.data_append]
  · exact failureView_no_tag 'c' "anvas".data msg hmsg rfl (by decide)
  · exact failureView_no_tag 'u' "l>".data msg hmsg rfl (by decide)
  · exact failureView_no_tag 'h' "5>".data msg hmsg rfl (by decide)
  · exact failureView_no_tag 's' "trong".data msg hmsg rfl (by decide)

/-- Claim C1: whenever the status discriminator of a weight-trend,
blood-pressure-trend or goal-progress payload is not `success`, the
corresponding renderer writes only the payload's message (inside the
fixed alert wrapper): the output contains the message, no chart
(`<canvas>` markup or chart specification), no insights markup
(`<ul>` / `<h5>`) and no bold-labelled numeric field (`<strong>`), and
the weight / blood-pressure insights containers are cleared. -/
theorem failure_renders_only_message (fmtDate : String → String)
    (w : WeightTrendData) (b : BpTrendData) (g : GoalProgressData)
    (hw : w.status ≠ "success") (hwm : '<' ∉ w.message.data)
    (hb : b.status ≠ "success") (hbm : '<' ∉ b.message.data)
    (hg : g.status ≠ "success") (hgm : '<' ∉ g.message.data) :
    (loadWeightTrendView fmtDate w = ⟨failureView w.message, none, ""⟩ ∧
      w.message.data <:+: (failureView w.message).data ∧
      hasSub "<canvas".data (failureView w.message).data = false ∧
      hasSub "<ul>".data (failureView w.message).data = false ∧
      hasSub "<h5>".data (failureView w.message).data = false ∧
      hasSub "<strong".data (failureView w.message).data = false) ∧
    (loadBloodPressureTrendView b = ⟨failureView b.message, none, ""⟩ ∧
      b.message.data <:+: (failureView b.message).data ∧
      hasSub "<canvas".data (failureView b.message).data = false ∧
      hasSub "<ul>".data (failureView b.message).data = false ∧
      hasSub "<h5>".data (failureView b.message).data = false ∧
      hasSub "<strong".data (failureView b.message).data = false) ∧
    (renderGoalProgress g = failureView g.message ∧
      g.message.data <:+: (failureView g.message).data ∧
      hasSub "<canvas".data (failureView g.message).data = false ∧
      hasSub "<ul>".data (failureView g.message).data = false ∧
      hasSub "<h5>".data (failureView g.message).data = false ∧
      hasSub "<strong".data (failureView g.message).data = false) := by
  refine ⟨⟨?_, failureView_only_message w.message hwm⟩,
          ⟨?_, failureView_only_message b.message hbm⟩,
          ⟨?_, failureView_only_message g.message hgm⟩⟩
  · simp [loadWeightTrendView, hw]
  · simp [loadBloodPressureTrendView, hb]
  · simp [renderGoalProgress, hg]

end HealthSync

namespace HealthSync

/-- Concrete failing weight-trend payload. -/
def weightFailPayload : WeightTrendData :=
  ⟨"insufficient_data", "Not enough weight data", none, none, "", "", "", "", []⟩

/-- Concrete failing blood-pressure-trend payload. -/
def bpFailPayload : BpTrendData :=
  ⟨"insufficient_data", "Not enough blood pressure data",
   "", "", "", "", "", "", "", "", []⟩

/-- Concrete failing goal-progress payload. -/
def goalFailPayload : GoalProgressData :=
  ⟨"insufficient_data", "No progress data found", "weight", "", "", "", 0, []⟩

/-- Witness for C1 at concrete failing payloads. -/
theorem failure_renders_only_message_witness :
    (loadWeightTrendView id weightFailPayload
        = ⟨failureView weightFailPayload.message, none, ""⟩ ∧
      weightFailPayload.message.data <:+: (failureView weightFailPayload.message).data ∧
      hasSub "<canvas".data (failureView weightFailPayload.message).data = false ∧
      hasSub "<ul>".data (failureView weightFailPayload.message).data = false ∧
      hasSub "<h5>".data (failureView weightFailPayload.message).data = false ∧
      hasSub "<strong".data (failureView weightFailPayload.message).data = false) ∧
    (loadBloodPressureTrendView bpFailPayload
        = ⟨failureView bpFailPayload.message, none, ""⟩ ∧
      bpFailPayload.message.data <:+: (failureView bpFailPayload.message).data ∧
      hasSub "<canvas".data (failureView bpFailPayload.message).data = false ∧
      hasSub "<ul>".data (failureView bpFailPayload.message).data = false ∧
      hasSub "<h5>".data (failureView bpFailPayload.message).data = false ∧
      hasSub "<strong".data (failureView bpFailPayload.message).data = false) ∧
    (renderGoalProgress goalFailPayload = failureView goalFailPayload.message ∧
      goalFailPayload.message.data <:+: (failureView goalFailPayload.message).data ∧
      hasSub "<canvas".data (failureView goalFailPayload.message).data = false ∧
      hasSub "<ul>".data (failureView goalFailPayload.message).data = false ∧
      hasSub "<h5>".data (failureView goalFailPayload.message).data = false ∧
      hasSub "<strong".data (failureView goalFailPayload.message).data = false) :=
  failure_renders_only_message id weightFailPayload bpFailPayload goalFailPayload
    (by decide) (by decide) (by decide) (by decide) (by decide) (by decide)

end HealthSync

namespace HealthSync

/-- `user_info` object of the health report. -/
structure UserInfo where
  name : String
  age : Option String
  gender : String
  height_cm : String
  current_weight_kg : Option String

/-- `summary` object of the health report. -/
structure ReportSummary where
  data_points_collected : String
  days_tracked : String
  metrics_tracked : List String

/-- `weight_analysis` section payload. -/
structure WeightAnalysis where
  total_change_kg : String
  percent_change : String
  weekly_change_rate_kg : String
  trend : String

/-- `blood_pressure_analysis` section payload. -/
structure BpAnalysis where
  average_systolic : String
  average_diastolic : String
  category : String

/-- `nutrition_summary` section payload, carrying its own nested status. -/
structure NutritionSummary where
  status : String
  average_daily_calories : String
  days_tracked : String
  meal_frequency : Option (List (String × String))

/-- One `time_patterns` entry of the symptom section. -/
structure TimePattern where
  symptom : String
  time : String

/-- `symptom_patterns` section payload, carrying its own nested status. -/
structure SymptomPatterns where
  status : String
  most_frequent_symptoms : Option (List (String × String))
  time_patterns : Option (List TimePattern)

/-- Health-report payload (`/health-report` response). -/
structure HealthReport where
  status : String
  message : String
  user_info : UserInfo
  report_date : String
  summary : ReportSummary
  weight_analysis : Option WeightAnalysis
  blood_pressure_analysis : Option BpAnalysis
  nutrition_summary : Option NutritionSummary
  symptom_patterns : Option SymptomPatterns
  recommendations : List String

/-- User-information card (progress.js lines 485-497); `age` and
`current_weight_kg` are rendered only when truthy. -/
def userInfoSectionHtml (u : UserInfo) : String :=
  "<div class=\"card mb-3\"><div class=\"card-header\">User Information</div><div class=\"card-body\">"
  ++ "<p><strong>Name:</strong> " ++ u.name ++ "</p>"
  ++ (match u.age with
      | some a => "<p><strong>Age:</strong> " ++ a ++ "</p>"
      | none => "")
  ++ "<p><strong>Gender:</strong> " ++ u.gender ++ "</p>"
  ++ "<p><strong>Height:</strong> " ++ u.height_cm ++ " cm</p>"
  ++ (match u.current_weight_kg with
      | some wkg => "<p><strong>Current Weight:</strong> " ++ wkg ++ " kg</p>"
      | none => "")
  ++ "</div></div>"

/-- Summary card (progress.js lines 500-507); `metrics_tracked` is
joined with `', '`. -/
def summarySectionHtml (fmtDate : String → String) (rdate : String)
    (s : ReportSummary) : String :=
  "<div class=\"card mb-3\"><div class=\"card-header\">Summary</div><div class=\"card-body\">"
  ++ "<p><strong>Report Date:</strong> " ++ fmtDate rdate ++ "</p>"
  ++ "<p><strong>Data Points Collected:</strong> " ++ s.data_points_collected ++ "</p>"
  ++ "<p><strong>Days Tracked:</strong> " ++ s.days_tracked ++ "</p>"
  ++ "<p><strong>Metrics Tracked:</strong> " ++ String.intercalate ", " s.metrics_tracked ++ "</p>"
  ++ "</div></div>"

/-- Weight-analysis card (progress.js lines 510-518). -/
def weightSectionHtml (w : WeightAnalysis) : String :=
  "<div class=\"card mb-3\"><div class=\"card-header\">Weight Analysis</div><div class=\"card-body\">"
  ++ "<p><strong>Total Change:</strong> " ++ w.total_change_kg ++ " kg ("
    ++ w.percent_change ++ "%)</p>"
  ++ "<p><strong>Weekly Change Rate:</strong> " ++ w.weekly_change_rate_kg ++ " kg/week</p>"
  ++ "<p><strong>Trend:</strong> " ++ capitalizeFirst w.trend ++ "</p>"
  ++ "</div></div>"

/-- Blood-pressure-analysis card (progress.js lines 521-538), using the
same category map as the trend renderer. -/
def bpSectionHtml (b : BpAnalysis) : String :=
  "<div class=\"card mb-3\"><div class=\"card-header\">Blood Pressure Analysis</div><div class=\"card-body\">"
  ++ "<p><strong>Average:</strong> " ++ b.average_systolic ++ "/"
    ++ b.average_diastolic ++ " mmHg</p>"
  ++ "<p><strong>Category:</strong> " ++ bpCategoryLabel b.category ++ "</p>"
  ++ "</div></div>"

/-- `Object.entries(meal_frequency)` loop items, with the meal type
capitalized. -/
def mealItems : List (String × String) → String
  | [] => ""
  | (mealType, count) :: rest =>
      "<li>" ++ capitalizeFirst mealType ++ ": " ++ count ++ "</li>" ++ mealItems rest

/-- Nutrition-summary card (progress.js lines 542-559). -/
def nutritionSectionHtml (n : NutritionSummary) : String :=
  "<div class=\"card mb-3\"><div class=\"card-header\">Nutrition Summary</div><div class=\"card-body\">"
  ++ "<p><strong>Average Daily Calories:</strong> " ++ n.average_daily_calories ++ "</p>"
  ++ "<p><strong>Days Tracked:</strong> " ++ n.days_tracked ++ "</p>"
  ++ (match n.meal_frequency with
      | some mf => "<p><strong>Meal Frequency:</strong></p><ul>" ++ mealItems mf ++ "</ul>"
      | none => "")
  ++ "</div></div>"

/-- `most_frequent_symptoms` items (`[symptom, count]` pairs). -/
def freqItems : List (String × String) → String
  | [] => ""
  | (sym, count) :: rest =>
      "<li>" ++ sym ++ ": " ++ count ++ " occurrences</li>" ++ freqItems rest

/-- `time_patterns` items. -/
def timeItems : List TimePattern → String
  | [] => ""
  | p :: rest =>
      "<li>" ++ p.symptom ++ " tends to occur in the " ++ p.time ++ "</li>" ++ timeItems rest

/-- Symptom-patterns card (progress.js lines 562-587); each sub-list is
rendered only when present and non-empty. -/
def symptomSectionHtml (sp : SymptomPatterns) : String :=
  "<div class=\"card mb-3\"><div class=\"card-header\">Symptom Patterns</div><div class=\"card-body\">"
  ++ (match sp.most_frequent_symptoms with
      | some l =>
          if l.isEmpty then ""
          else "<p><strong>Most Frequent Symptoms:</strong></p><ul>" ++ freqItems l ++ "</ul>"
      | none => "")
  ++ (match sp.time_patterns with
      | some l =>
          if l.isEmpty then ""
          else "<p><strong>Time Patterns:</strong></p><ul>" ++ timeItems l ++ "</ul>"
      | none => "")
  ++ "</div></div>"

/-- Recommendations card (progress.js lines 590-600). -/
def recsSectionHtml (recs : List String) : String :=
  "<div class=\"card mb-3\"><div class=\"card-header\">Recommendations</div><div class=\"card-body\">"
  ++ "<ul>" ++ insightItems recs ++ "</ul>"
  ++ "</div></div>"

/-- `renderHealthReport` (progress.js lines 478-608): on success the
report div accumulates, in source order, the user-info card, the summary
card, the optional weight / blood-pressure cards, the nutrition and
symptom cards gated on their own nested status, and the recommendations
card gated on non-emptiness; on any other status only the message
alert. -/
def renderHealthReport (fmtDate : String → String) (d : HealthReport) : String :=
  if d.status = "success" then
    "<div class=\"health-report\">"
    ++ userInfoSectionHtml d.user_info
    ++ summarySectionHtml fmtDate d.report_date d.summary
    ++ (match d.weight_analysis with
        | some w => weightSectionHtml w
        | none => "")
    ++ (match d.blood_pressure_analysis with
        | some b => bpSectionHtml b
        | none => "")
    ++ (match d.nutrition_summary with
        | some n => if n.status = "success" then nutritionSectionHtml n else ""
        | none => "")
    ++ (match d.symptom_patterns with
        | some sp => if sp.status = "success" then symptomSectionHtml sp else ""
        | none => "")
    ++ (if d.recommendations.isEmpty then "" else recsSectionHtml d.recommendations)
    ++ "</div>"
  else failureView d.message

/-- Concatenation of a list of HTML chunks. -/
def joinAll : List String → String
  | [] => ""
  | s :: rest => s ++ joinAll rest

/-- Modelled from the spec (§4.4): the ordered list of sections the
report composer must emit — identity info, summary, weight (if
present), blood pressure (if present), nutrition (if present and its
own status is success), symptom patterns (if present and its own status
is success), recommendations (if non-empty) — absent sections skipped
entirely. -/
def reportSections (fmtDate : String → String) (d : HealthReport) : List String :=
  [userInfoSectionHtml d.user_info,
   summarySectionHtml fmtDate d.report_date d.summary]
  ++ (match d.weight_analysis with
      | some w => [weightSectionHtml w]
      | none => [])
  ++ (match d.blood_pressure_analysis with
      | some b => [bpSectionHtml b]
      | none => [])
  ++ (match d.nutrition_summary with
      | some n => if n.status = "success" then [nutritionSectionHtml n] else []
      | none => [])
  ++ (match d.symptom_patterns with
      | some sp => if sp.status = "success" then [symptomSectionHtml sp] else []
      | none => [])
  ++ (if d.recommendations.isEmpty then [] else [recsSectionHtml d.recommendations])

end HealthSync

namespace HealthSync

/-- Concatenation distributes over list append. -/
theorem joinAll_append (a b : List String) :
    joinAll (a ++ b) = joinAll a ++ joinAll b := by
  induction a with
  | nil => simp [joinAll]
  | cons s rest ih => simp [joinAll, ih, String.append_assoc]

/-- Claim C5: for every health-report payload with status `success` the
composer's output is exactly the fixed wrapper around the sections of
`reportSections` in their stated order — identity info, summary, weight
(if present), blood pressure (if present), nutrition (if present and
its own nested status is success), symptom patterns (likewise),
recommendations (if non-empty) — and each nested sub-status is checked
independently of the parent status: a present nutrition or symptom
section whose own status is not success renders identically to an
absent one. -/
theorem renderHealthReport_ordered_sections (fmtDate : String → String)
    (d : HealthReport) (h : d.status = "success") :
    renderHealthReport fmtDate d
      = "<div class=\"health-report\">" ++ joinAll (reportSections fmtDate d) ++ "</div>" ∧
    (∀ n, d.nutrition_summary = some n → n.status ≠ "success" →
      renderHealthReport fmtDate d
        = renderHealthReport fmtDate { d with nutrition_summary := none }) ∧
    (∀ sp, d.symptom_patterns = some sp → sp.status ≠ "success" →
      renderHealthReport fmtDate d
        = renderHealthReport fmtDate { d with symptom_patterns := none }) := by
  refine ⟨?_, ?_, ?_⟩
  · rw [renderHealthReport, if_pos h, reportSections]
    rcases d.weight_analysis with _ | w <;>
      rcases d.blood_pressure_analysis with _ | b <;>
      rcases d.nutrition_summary with _ | n <;>
      rcases d.symptom_patterns with _ | sp <;>
      simp [joinAll, joinAll_append, apply_ite joinAll,
            String.append_assoc, String.append_empty]
  · intro n hn hns
    simp [renderHealthReport, h, hn, hns]
  · intro sp hsp hsps
    simp [renderHealthReport, h, hsp, hsps]

/-- Concrete full health report used by the C5 witness. -/
def sampleReport : HealthReport where
  status := "success"
  message := ""
  user_info := ⟨"Asha", some "29", "female", "170", some "65"⟩
  report_date := "2025-01-01"
  summary := ⟨"42", "30", ["weight", "blood_pressure"]⟩
  weight_analysis := some ⟨"-2.0", "-3.0", "-0.5", "decreasing"⟩
  blood_pressure_analysis := some ⟨"118", "76", "normal"⟩
  nutrition_summary := some ⟨"insufficient_data", "", "", none⟩
  symptom_patterns := some ⟨"success", some [("headache", "4")], none⟩
  recommendations := ["Keep tracking your weight"]

/-- Witness for C5 at a concrete success report: the output is the
wrapper around the ordered section list, and the non-success nutrition
sub-section renders as if absent. -/
theorem renderHealthReport_ordered_sections_witness :
    renderHealthReport id sampleReport
      = "<div class=\"health-report\">"
        ++ joinAll (reportSections id sampleReport) ++ "</div>" ∧
    renderHealthReport id sampleReport
      = renderHealthReport id { sampleReport with nutrition_summary := none } :=
  ⟨(renderHealthReport_ordered_sections id sampleReport rfl).1,
   (renderHealthReport_ordered_sections id sampleReport rfl).2.1
     ⟨"insufficient_data", "", "", none⟩ rfl (by decide)⟩

end HealthSync

namespace HealthSync

/-- One `correlations` entry (food-symptom-correlations response). -/
structure Correlation where
  food : String
  symptom : String
  confidence : String
  correlation_percentage : String
  occurrences : String

/-- Correlations payload; an absent `correlations` field is `none`. -/
structure CorrelationsData where
  correlations : Option (List Correlation)

/-- The `confidenceClass` object lookup of `renderCorrelations`
(consultation.js), with its `|| 'text-muted'` default. -/
def confidenceClass (c : String) : String :=
  if c = "low" then "text-muted"
  else if c = "medium" then "text-warning"
  else if c = "high" then "text-danger"
  else "text-muted"

/-- The `confidenceIcon` object lookup, with its white-circle default. -/
def confidenceIcon (c : String) : String :=
  if c = "low" then "⚪"
  else if c = "medium" then "🟡"
  else if c = "high" then "🔴"
  else "⚪"

/-- One table row of `renderCorrelations` (template-literal indentation
whitespace omitted). -/
def corrRowHtml (c : Correlation) : String :=
  "<tr><td>" ++ c.food ++ "</td><td>" ++ c.symptom
  ++ "</td><td class=\"" ++ confidenceClass c.confidence ++ "\">"
  ++ confidenceIcon c.confidence ++ " " ++ c.confidence
  ++ "</td><td>" ++ c.correlation_percentage ++ "% ("
  ++ c.occurrences ++ " occurrences)</td></tr>"

/-- The `data.correlations.forEach` accumulation of rows. -/
def corrRows : List Correlation → String
  | [] => ""
  | c :: rest => corrRowHtml c ++ corrRows rest

/-- Informational block rendered when no correlations are available. -/
def noCorrelationsMsg : String :=
  "<div class=\"alert alert-info\"><p class=\"mb-0\">No significant food-symptom correlations found. Continue logging your meals and symptoms for more insights.</p></div>"

/-- Fixed prefix of the correlations table (intro text, table head). -/
def corrTableOpen : String :=
  "<div class=\"mb-3\"><p class=\"text-muted\">The following food items may be associated with your symptoms:</p><div class=\"table-responsive\"><table class=\"table table-hover\"><thead><tr><th>Food</th><th>Symptom</th><th>Confidence</th><th>Correlation</th></tr></thead><tbody>"

/-- Fixed suffix of the correlations table (closing tags, note). -/
def corrTableClose : String :=
  "</tbody></table></div><div class=\"alert alert-info mt-3\"><p class=\"mb-0\"><strong>Note:</strong> Correlation does not necessarily imply causation. These associations are based on your logged data and may require further investigation.</p></div></div>"

/-- `renderCorrelations` (consultation.js lines 521-587):
`if (data.correlations && data.correlations.length > 0)` renders the
table, otherwise the informational message. -/
def renderCorrelations (d : CorrelationsData) : String :=
  match d.correlations with
  | some l =>
      if l.isEmpty then noCorrelationsMsg
      else corrTableOpen ++ corrRows l ++ corrTableClose
  | none => noCorrelationsMsg

/-- The sequential `forEach` row accumulation equals the join of the
per-entry rows, in input order. -/
theorem corrRows_eq_join (l : List Correlation) :
    corrRows l = joinAll (l.map corrRowHtml) := by
  induction l with
  | nil => rfl
  | cons c rest ih => simp [corrRows, joinAll, ih]

/-- Claim C6: an empty or absent correlations list yields the single
informational message, which contains no table row; a non-empty list
yields exactly one `<tr>` row per entry between the fixed table prefix
and suffix, in input order, each row carrying the entry's mapped
confidence class and indicator (lookup tables shown alongside). -/
theorem renderCorrelations_spec (d : CorrelationsData) :
    ((d.correlations = none ∨ d.correlations = some []) →
      renderCorrelations d = noCorrelationsMsg ∧
      hasSub "<tr".data noCorrelationsMsg.data = false) ∧
    (∀ l, d.correlations = some l → l ≠ [] →
      renderCorrelations d
        = corrTableOpen ++ joinAll (l.map corrRowHtml) ++ corrTableClose) ∧
    (confidenceClass "low" = "text-muted" ∧ confidenceClass "medium" = "text-warning" ∧
      confidenceClass "high" = "text-danger" ∧ confidenceIcon "low" = "⚪" ∧
      confidenceIcon "medium" = "🟡" ∧ confidenceIcon "high" = "🔴") := by
  refine ⟨?_, ?_, by decide⟩
  · rintro (h | h) <;> exact ⟨by simp [renderCorrelations, h], by decide⟩
  · intro l hl hne
    rcases l with _ | ⟨c, rest⟩
    · exact absurd rfl hne
    · simp [renderCorrelations, hl, corrRows_eq_join]

/-- Concrete correlation entry for the C6 witness. -/
def corrSample : Correlation :=
  ⟨"milk", "bloating", "high", "82", "5"⟩

/-- Witness for C6: the empty list yields the message, a one-entry list
yields the single mapped row between the fixed table chrome. -/
theorem renderCorrelations_spec_witness :
    renderCorrelations ⟨some []⟩ = noCorrelationsMsg ∧
    renderCorrelations ⟨some [corrSample]⟩
      = corrTableOpen ++ joinAll ([corrSample].map corrRowHtml) ++ corrTableClose :=
  ⟨((renderCorrelations_spec ⟨some []⟩).1 (Or.inr rfl)).1,
   (renderCorrelations_spec ⟨some [corrSample]⟩).2.1 [corrSample] rfl
     (List.cons_ne_nil _ _)⟩

end HealthSync

namespace HealthSync

/-- The four progress tabs (`weight-tab`, `blood-pressure-tab`,
`goals-tab`, `report-tab`). -/
inductive Tab
  | weight
  | bloodPressure
  | goals
  | report
  deriving DecidableEq

/-- Network loads the controller can trigger (`loadWeightTrend`,
`loadBloodPressureTrend`, `loadGoalProgress`, `loadHealthReport`),
with the day-range the range-dependent loads use. -/
inductive NetCall
  | weightTrend (days : Int)
  | bpTrend (days : Int)
  | goalProgress
  | healthReport
  deriving DecidableEq

/-- Controller state: the active tab and the stored day count. -/
structure CtrlState where
  activeTab : Tab
  currentDays : Int
  deriving DecidableEq

/-- Initial state: weight tab active, 30-day range (progress.js `init`
and `config.defaultDays`). -/
def initCtrlState : CtrlState :=
  ⟨Tab.weight, 30⟩

/-- Tab-click handler (progress.js lines 48-74): activates the clicked
tab and triggers that tab's load. -/
def handleTabClick (t : Tab) (st : CtrlState) : CtrlState × List NetCall :=
  ({ st with activeTab := t },
   match t with
   | Tab.weight => [NetCall.weightTrend st.currentDays]
   | Tab.bloodPressure => [NetCall.bpTrend st.currentDays]
   | Tab.goals => [NetCall.goalProgress]
   | Tab.report => [NetCall.healthReport])

/-- Time-range-change handler (progress.js lines 77-90): stores the new
day count, then reloads only when the active tab is `weight-tab` or
`blood-pressure-tab`. -/
def handleTimeRangeChange (days : Int) (st : CtrlState) : CtrlState × List NetCall :=
  ({ st with currentDays := days },
   if st.activeTab = Tab.weight then [NetCall.weightTrend days]
   else if st.activeTab = Tab.bloodPressure then [NetCall.bpTrend days]
   else [])

/-- States reachable from the initial state by tab clicks and
time-range changes. -/
inductive ReachableCtrl : CtrlState → Prop
  | init : ReachableCtrl initCtrlState
  | tab (t : Tab) {s : CtrlState} :
      ReachableCtrl s → ReachableCtrl (handleTabClick t s).1
  | range (days : Int) {s : CtrlState} :
      ReachableCtrl s → ReachableCtrl (handleTimeRangeChange days s).1

/-- Claim C7: in every reachable controller state a time-range change
stores the new day count, triggers a load exactly when the active tab
is weight or blood-pressure, and triggers zero network calls when the
goals or report tab is active. -/
theorem timeRange_loads_only_range_dependent_tabs (st : CtrlState)
    (hreach : ReachableCtrl st) (days : Int) :
    (handleTimeRangeChange days st).1.currentDays = days ∧
    ((handleTimeRangeChange days st).2 ≠ []
      ↔ st.activeTab = Tab.weight ∨ st.activeTab = Tab.bloodPressure) ∧
    (st.activeTab = Tab.goals ∨ st.activeTab = Tab.report →
      (handleTimeRangeChange days st).2 = []) := by
  refine ⟨rfl, ?_, ?_⟩
  · cases h : st.activeTab <;> simp [handleTimeRangeChange, h]
  · rintro (h | h) <;> simp [handleTimeRangeChange, h]

/-- Witness for C7: from the initial state, click the goals tab; a
subsequent range change to 90 days updates the stored count and issues
no network call. -/
theorem timeRange_loads_only_range_dependent_tabs_witness :
    (handleTimeRangeChange 90 (handleTabClick Tab.goals initCtrlState).1).1.currentDays = 90 ∧
    (handleTimeRangeChange 90 (handleTabClick Tab.goals initCtrlState).1).2 = [] :=
  ⟨(timeRange_loads_only_range_dependent_tabs _
      (ReachableCtrl.tab Tab.goals ReachableCtrl.init) 90).1,
   (timeRange_loads_only_range_dependent_tabs _
      (ReachableCtrl.tab Tab.goals ReachableCtrl.init) 90).2.2 (Or.inl rfl)⟩

end HealthSync

namespace HealthSync

/-- State of the health-tips module: `STATE.healthTips`, a map from
category string to the cached response. -/
structure TipsState where
  cache : String → Option String

/-- Outcome of one `fetch` of `/consultation/health-tips/CATEGORY`:
either parsed response data or a network/HTTP failure. -/
inductive FetchResult
  | ok (data : String)
  | err
  deriving DecidableEq

/-- `loadHealthTips` (consultation.js lines 138-178).  Returns the new
state, whether a network fetch was issued, and the data passed to
`renderHealthTips` (none when the content element is missing or the
fetch failed, in which case an error alert is shown instead).  A cache
hit renders the cached value without fetching; a successful fetch
stores the response under the category key; a failed fetch stores
nothing. -/
def loadHealthTips (c : String) (res : FetchResult) (contentPresent : Bool)
    (st : TipsState) : TipsState × Bool × Option String :=
  if contentPresent = false then (st, false, none)
  else
    match st.cache c with
    | some v => (st, false, some v)
    | none =>
        match res with
        | FetchResult.ok d =>
            (⟨fun c' => if c' = c then some d else st.cache c'⟩, true, some d)
        | FetchResult.err => (st, true, none)

/-- A sequence of `loadHealthTips` calls (category and fetch outcome per
call, content element present); returns the final state and the list of
categories for which a fetch was issued. -/
def runTips : TipsState → List (String × FetchResult) → TipsState × List String
  | st, [] => (st, [])
  | st, (c, r) :: rest =>
      let step := loadHealthTips c r true st
      let next := runTips step.1 rest
      (next.1, (if step.2.1 then [c] else []) ++ next.2)

/-- A cache hit neither fetches nor changes the state, and renders the
cached value. -/
theorem loadHealthTips_cached (st : TipsState) (c v : String) (res : FetchResult)
    (h : st.cache c = some v) :
    loadHealthTips c res true st = (st, false, some v) := by
  simp [loadHealthTips, h]

/-- No call, for any category and outcome, invalidates or overwrites an
existing cache entry. -/
theorem loadHealthTips_preserves_cache (st : TipsState) (c v c' : String)
    (res : FetchResult) (cp : Bool) (h : st.cache c = some v) :
    ((loadHealthTips c' res cp st).1).cache c = some v := by
  rcases cp with _ | _
  · simpa [loadHealthTips] using h
  · rcases hc' : st.cache c' with _ | w
    · rcases res with d | _
      · by_cases hcc : c = c'
        · subst hcc; rw [h] at hc'; exact absurd hc' (by simp)
        · simpa [loadHealthTips, hc', hcc] using h
      · simpa [loadHealthTips, hc'] using h
    · simpa [loadHealthTips, hc'] using h

/-- Once a category is cached, a run of further calls never fetches it
again. -/
theorem runTips_cached_no_fetch (calls : List (String × FetchResult))
    (st : TipsState) (c v : String) (h : st.cache c = some v) :
    ((runTips st calls).2).count c = 0 := by
  induction calls generalizing st with
  | nil => simp [runTips]
  | cons p rest ih =>
    obtain ⟨c', r⟩ := p
    by_cases hcc : c' = c
    · subst hcc
      rw [runTips]
      rw [loadHealthTips_cached st c' v r h]
      simpa [runTips] using ih st h
    · rw [runTips]
      have hpres := loadHealthTips_preserves_cache st c v c' r true h
      have h1 : List.count c
          (if (loadHealthTips c' r true st).2.1 = true then [c'] else []) = 0 := by
        rcases hf : (loadHealthTips c' r true st).2.1 <;>
          simp [hf, List.count_cons, hcc]
      have h2 := ih _ hpres
      simp [List.count_append, h1, h2]

/-- Claim C8: a cache hit issues no fetch and renders the cached value
with the state unchanged; no call ever invalidates or overwrites an
existing entry; and over any sequence of completed (non-failing) calls
at most one fetch is issued per category. -/
theorem healthTips_cache_spec :
    (∀ (st : TipsState) (c v : String) (res : FetchResult),
      st.cache c = some v → loadHealthTips c res true st = (st, false, some v)) ∧
    (∀ (st : TipsState) (c v c' : String) (res : FetchResult) (cp : Bool),
      st.cache c = some v → ((loadHealthTips c' res cp st).1).cache c = some v) ∧
    (∀ (calls : List (String × FetchResult)) (st : TipsState) (c : String),
      (∀ p ∈ calls, p.2 ≠ FetchResult.err) →
      ((runTips st calls).2).count c ≤ 1) := by
  refine ⟨loadHealthTips_cached, loadHealthTips_preserves_cache, ?_⟩
  intro calls
  induction calls with
  | nil => intro st c _; simp [runTips]
  | cons p rest ih =>
    intro st c hok
    obtain ⟨c', r⟩ := p
    have hr : r ≠ FetchResult.err := hok (c', r) (List.mem_cons_self _ _)
    have hrest : ∀ p ∈ rest, p.2 ≠ FetchResult.err :=
      fun q hq => hok q (List.mem_cons_of_mem _ hq)
    rcases r with d | _
    · rcases hc' : st.cache c' with _ | w
      · by_cases hcc : c' = c
        · subst hcc
          rw [runTips]
          have hnew : ((loadHealthTips c' (FetchResult.ok d) true st).1).cache c'
              = some d := by
            simp [loadHealthTips, hc']
          have hzero := runTips_cached_no_fetch rest _ c' d hnew
          have hfetch : (loadHealthTips c' (FetchResult.ok d) true st).2.1 = true := by
            simp [loadHealthTips, hc']
          simp [hfetch, List.count_append, hzero, List.count_cons]
        · rw [runTips]
          simp only [List.count_append]
          have hone : ((if (loadHealthTips c' (FetchResult.ok d) true st).2.1
              then [c'] else []) : List String).count c = 0 := by
            rcases hf : (loadHealthTips c' (FetchResult.ok d) true st).2.1 <;>
              simp [hf, List.count_cons, hcc]
          rw [hone]
          simpa using ih _ c hrest
      · rw [runTips]
        rw [loadHealthTips_cached st c' w (FetchResult.ok d) hc']
        simpa [runTips] using ih st c hrest
    · exact absurd rfl hr

/-- Empty initial tips cache. -/
def emptyTips : TipsState := ⟨fun _ => none⟩

/-- Tips state after one successful fetch for `nutrition`. -/
def tipsAfterFirst : TipsState :=
  (loadHealthTips "nutrition" (FetchResult.ok "tips1") true emptyTips).1

/-- Witness for C8: after a first completed fetch for `nutrition`, a
second call hits the cache (no fetch, cached value rendered, state
unchanged), and a two-call run for the same category issues at most one
fetch. -/
theorem healthTips_cache_spec_witness :
    loadHealthTips "nutrition" (FetchResult.ok "tips2") true tipsAfterFirst
      = (tipsAfterFirst, false, some "tips1") ∧
    ((runTips emptyTips
        [("nutrition", FetchResult.ok "tips1"),
         ("nutrition", FetchResult.ok "tips2")]).2).count "nutrition" ≤ 1 :=
  ⟨healthTips_cache_spec.1 tipsAfterFirst "nutrition" "tips1"
      (FetchResult.ok "tips2") (by decide),
   healthTips_cache_spec.2.2
      [("nutrition", FetchResult.ok "tips1"), ("nutrition", FetchResult.ok "tips2")]
      emptyTips "nutrition" (by decide)⟩

end HealthSync

namespace HealthSync

/-- The Base64 alphabet used by `btoa` / `atob`. -/
def b64Table : List Char :=
  "ABCDEFGHIJKLMNOPQRSTUVWXYZabcdefghijklmnopqrstuvwxyz0123456789+/".data

/-- Character for a 6-bit group. -/
def b64Char (n : Nat) : Char :=
  b64Table.getD n '?'

/-- Modelled from the spec: value of a Base64 character for `atob`
(a browser builtin, not part of the repository source); `none` for a
character outside the alphabet. -/
def b64Val (c : Char) : Option Nat :=
  if c ∈ b64Table then some (b64Table.indexOf c) else none

/-- Modelled from the spec: `btoa` (browser builtin) on a list of byte
values, all assumed `< 256` — three bytes per four output characters,
`=`-padded. -/
def b64Encode : List Nat → List Char
  | [] => []
  | [a] => [b64Char (a / 4), b64Char (a % 4 * 16), '=', '=']
  | [a, b] =>
      [b64Char (a / 4), b64Char (a % 4 * 16 + b / 16), b64Char (b % 16 * 4), '=']
  | a :: b :: c :: rest =>
      b64Char (a / 4) :: b64Char (a % 4 * 16 + b / 16)
        :: b64Char (b % 16 * 4 + c / 64) :: b64Char (c % 64) :: b64Encode rest

/-- Two leading characters of a final quad: one byte. -/
def b64DecodePair (c1 c2 : Char) : Option (List Nat) :=
  match b64Val c1, b64Val c2 with
  | some v1, some v2 => some [v1 * 4 + v2 / 16]
  | _, _ => none

/-- Three leading characters of a final quad: two bytes. -/
def b64DecodeTriple (c1 c2 c3 : Char) : Option (List Nat) :=
  match b64Val c1, b64Val c2, b64Val c3 with
  | some v1, some v2, some v3 =>
      some [v1 * 4 + v2 / 16, v2 % 16 * 16 + v3 / 4]
  | _, _, _ => none

/-- Modelled from the spec: `atob` (browser builtin): `none` on strings
whose length is `1 mod 4`, on characters outside the alphabet, and on
misplaced padding — the situations in which `atob` throws (whitespace
stripping omitted). -/
def b64Decode : List Char → Option (List Nat)
  | [] => some []
  | [_] => none
  | [c1, c2] => b64DecodePair c1 c2
  | [c1, c2, c3] => b64DecodeTriple c1 c2 c3
  | [c1, c2, c3, c4] =>
      if c3 = '=' then
        if c4 = '=' then b64DecodePair c1 c2 else none
      else if c4 = '=' then b64DecodeTriple c1 c2 c3
      else
        match b64Val c1, b64Val c2, b64Val c3, b64Val c4 with
        | some v1, some v2, some v3, some v4 =>
            some [v1 * 4 + v2 / 16, v2 % 16 * 16 + v3 / 4, v3 % 4 * 64 + v4]
        | _, _, _, _ => none
  | c1 :: c2 :: c3 :: c4 :: c5 :: rest =>
      match b64Val c1, b64Val c2, b64Val c3, b64Val c4,
          b64Decode (c5 :: rest) with
      | some v1, some v2, some v3, some v4, some ds =>
          some ([v1 * 4 + v2 / 16, v2 % 16 * 16 + v3 / 4, v3 % 4 * 64 + v4] ++ ds)
      | _, _, _, _, _ => none

/-- Decoding a valid 6-bit group's character recovers the group. -/
theorem b64Val_b64Char (v : Nat) (h : v < 64) : b64Val (b64Char v) = some v := by
  interval_cases v <;> decide

/-- No alphabet character is the padding character. -/
theorem b64Char_ne_pad (v : Nat) (h : v < 64) : b64Char v ≠ '=' := by
  interval_cases v <;> decide

/-- Encoding a non-empty byte list yields a non-empty string. -/
theorem b64Encode_ne_nil : ∀ (l : List Nat), l ≠ [] → b64Encode l ≠ []
  | [], h => absurd rfl h
  | [_], _ => by simp [b64Encode]
  | [_, _], _ => by simp [b64Encode]
  | _ :: _ :: _ :: _, _ => by simp [b64Encode]

end HealthSync

namespace HealthSync

/-- Decoding inverts encoding on byte lists. -/
theorem b64_roundtrip : ∀ (l : List Nat), (∀ x ∈ l, x < 256) →
    b64Decode (b64Encode l) = some l
  | [], _ => rfl
  | [a], h => by
    have ha : a < 256 := h a (by simp)
    have hv1 : a / 4 < 64 := by omega
    have hv2 : a % 4 * 16 < 64 := by omega
    simp only [b64Encode, b64Decode]
    simp only [if_true]
    rw [b64DecodePair, b64Val_b64Char _ hv1, b64Val_b64Char _ hv2]
    simp <;> omega
  | [a, b], h => by
    have ha : a < 256 := h a (by simp)
    have hb : b < 256 := h b (by simp)
    have hv1 : a / 4 < 64 := by omega
    have hv2 : a % 4 * 16 + b / 16 < 64 := by omega
    have hv3 : b % 16 * 4 < 64 := by omega
    simp only [b64Encode, b64Decode]
    rw [if_neg (b64Char_ne_pad _ hv3)]
    simp only [if_true]
    rw [b64DecodeTriple,
        b64Val_b64Char _ hv1, b64Val_b64Char _ hv2, b64Val_b64Char _ hv3]
    simp <;> omega
  | a :: b :: c :: rest, h => by
    have ha : a < 256 := h a (by simp)
    have hb : b < 256 := h b (by simp)
    have hc : c < 256 := h c (by simp)
    have hv1 : a / 4 < 64 := by omega
    have hv2 : a % 4 * 16 + b / 16 < 64 := by omega
    have hv3 : b % 16 * 4 + c / 64 < 64 := by omega
    have hv4 : c % 64 < 64 := by omega
    rcases rest with _ | ⟨x, xs⟩
    · simp only [b64Encode, b64Decode]
      rw [if_neg (b64Char_ne_pad _ hv3), if_neg (b64Char_ne_pad _ hv4),
          b64Val_b64Char _ hv1, b64Val_b64Char _ hv2,
          b64Val_b64Char _ hv3, b64Val_b64Char _ hv4]
      simp <;> omega
    · have hrec := b64_roundtrip (x :: xs) (fun y hy => h y (by simp [hy]))
      obtain ⟨e, es, hE⟩ :=
        List.exists_cons_of_ne_nil (b64Encode_ne_nil (x :: xs) (by simp))
      simp only [b64Encode]
      rw [hE]
      simp only [b64Decode]
      rw [← hE, hrec,
          b64Val_b64Char _ hv1, b64Val_b64Char _ hv2,
          b64Val_b64Char _ hv3, b64Val_b64Char _ hv4]
      simp <;> omega

end HealthSync

namespace HealthSync

/-- The XOR loop of `encrypt` / `decrypt` (auth.js lines 11-34) from
position `i`: each code is XORed with
`secretKey.charCodeAt(i % secretKey.length)`.  For an empty key
`charCodeAt` yields `NaN`, which `^` coerces to 0; `getD 0` models
that. -/
def xorFrom (key : List Nat) (i : Nat) : List Nat → List Nat
  | [] => []
  | a :: rest => (a ^^^ key.getD (i % key.length) 0) :: xorFrom key (i + 1) rest

/-- The full XOR pass over a text's character codes. -/
def xorCycle (key : List Nat) (text : List Nat) : List Nat :=
  xorFrom key 0 text

/-- `encrypt` (auth.js lines 11-19): XOR then `btoa`; `none` models the
`InvalidCharacterError` `btoa` throws when an XORed code exceeds 255. -/
def encrypt (text key : List Nat) : Option (List Char) :=
  let x := xorCycle key text
  if x.all (fun v => v < 256) then some (b64Encode x) else none

/-- `decrypt` (auth.js lines 22-34): `atob` then XOR; the `catch`
branch returns `null`, modelled by `none`. -/
def decrypt (enc : List Char) (key : List Nat) : Option (List Nat) :=
  match b64Decode enc with
  | some codes => some (xorCycle key codes)
  | none => none

/-- XORing twice with the same cycled key from the same position is the
identity. -/
theorem xorFrom_involutive (key : List Nat) :
    ∀ (l : List Nat) (i : Nat), xorFrom key i (xorFrom key i l) = l := by
  intro l
  induction l with
  | nil => intro i; rfl
  | cons a rest ih =>
    intro i
    simp [xorFrom, ih (i + 1), Nat.xor_assoc]

/-- Claim C9: the XOR+Base64 obfuscation is reversible — for every text
and non-empty key whose XORed codes stay in the byte range,
`encrypt` succeeds and `decrypt` recovers the text exactly. -/
theorem decrypt_encrypt_roundtrip (text key : List Nat) (hkey : key ≠ [])
    (hrange : ∀ x ∈ xorCycle key text, x < 256) :
    ∃ e, encrypt text key = some e ∧ decrypt e key = some text := by
  have hall : (xorCycle key text).all (fun v => v < 256) = true := by
    simpa [List.all_eq_true] using hrange
  refine ⟨b64Encode (xorCycle key text), ?_, ?_⟩
  · simp [encrypt, hall]
  · rw [decrypt, b64_roundtrip _ hrange]
    simp [xorCycle, xorFrom_involutive]

/-- Witness for C9: the text `"Hi"` (codes 72, 105) with key `"k"`
(code 107) encrypts and decrypts back exactly. -/
theorem decrypt_encrypt_roundtrip_witness :
    ∃ e, encrypt [72, 105] [107] = some e ∧ decrypt e [107] = some [72, 105] :=
  decrypt_encrypt_roundtrip [72, 105] [107] (by decide) (by decide)

end HealthSync

namespace HealthSync

/-- Character codes of `SECRET_KEY` (auth.js line 44). -/
def secretKeyCodes : List Nat :=
  "healthsync_secure_key_2023".data.map Char.toNat

/-- Outcome of `Auth.checkAuth` (auth.js lines 55-71): its return
value, the `isAuthenticated` / `currentUser` fields it leaves behind,
and whether the catch branch ran `logout()` (clearing the stored
data). -/
structure AuthCheckOutcome (α : Type) where
  result : Bool
  isAuthenticated : Bool
  currentUser : Option α
  loggedOut : Bool
  deriving DecidableEq

/-- `Auth.checkAuth`.  `token` / `userData` are the localStorage
entries (`none` when absent or empty, hence falsy); `parse` models
`JSON.parse` on an actual decrypted string, `none` meaning it throws.
When `decrypt` returns `null` (invalid Base64), `JSON.parse(null)`
coerces its argument to the string `"null"` and returns `null` without
throwing, so the success path is taken with a null `currentUser`; only
a `parse` exception reaches the catch branch and `logout()`. -/
def checkAuth {α : Type} (parse : List Nat → Option α)
    (token : Option String) (userData : Option (List Char)) :
    AuthCheckOutcome α :=
  match token, userData with
  | some _, some ud =>
      match decrypt ud secretKeyCodes with
      | none => ⟨true, true, none, false⟩
      | some codes =>
          match parse codes with
          | some u => ⟨true, true, some u, false⟩
          | none => ⟨false, false, none, true⟩
  | _, _ => ⟨false, false, none, false⟩

/-- Claim C10: with both storage keys present but user data that is not
valid Base64, `decrypt` swallows its own exception and returns null,
`JSON.parse(null)` yields null without throwing, and `checkAuth`
returns true with `isAuthenticated = true` and a null `currentUser`;
the catch branch that would call `logout()` and clear the invalid data
is never reached. -/
theorem checkAuth_invalid_userdata {α : Type} (parse : List Nat → Option α)
    (tok : String) (ud : List Char) (hbad : b64Decode ud = none) :
    checkAuth parse (some tok) (some ud)
      = ⟨true, true, none, false⟩ := by
  simp [checkAuth, decrypt, hbad]

/-- Witness for C10: the stored blob `"!!!"` is not valid Base64; with
any token present, `checkAuth` reports an authenticated session with a
null user and does not log out. -/
theorem checkAuth_invalid_userdata_witness :
    checkAuth (fun _ => (none : Option Unit)) (some "token") (some "!!!".data)
      = ⟨true, true, none, false⟩ :=
  checkAuth_invalid_userdata (fun _ => (none : Option Unit)) "token" "!!!".data
    (by decide)

end HealthSync

namespace HealthSync

/-- JS `\s` on the ASCII range (space, tab, newline, carriage return,
vertical tab, form feed); the Unicode space classes `\s` also accepts
do not occur in this code's inputs of interest. -/
def isSpaceJs (c : Char) : Bool :=
  c == ' ' || c == '\t' || c == '\n' || c == '\r' || c.toNat == 11 || c.toNat == 12

/-- Split at the first newline: the lazy group `(.*?)` of a pattern
terminated by `\n` captures exactly the characters before the first
newline (`.` does not match newlines). -/
def splitAtNl : List Char → Option (List Char × List Char)
  | [] => none
  | '\n' :: rest => some ([], rest)
  | c :: rest => (splitAtNl rest).map (fun p => (c :: p.1, p.2))

/-- Lazy search for the closing `**` of `/\*\*(.*?)\*\*/`: at each
position the closer is tried first, then a non-newline character is
consumed. -/
def boldClose : List Char → Option (List Char × List Char)
  | '*' :: '*' :: rest => some ([], rest)
  | '\n' :: _ => none
  | c :: rest => (boldClose rest).map (fun p => (c :: p.1, p.2))
  | [] => none

/-- Pass 1 of `formatResponse`:
`text.replace(/\*\*(.*?)\*\*/g, '<strong>$1</strong>')`.  Fuel-driven
left-to-right global replace; on a failed match the scan advances one
character, as the regex engine does. -/
def boldPass : Nat → List Char → List Char
  | 0, cs => cs
  | _ + 1, [] => []
  | fuel + 1, '*' :: '*' :: rest =>
      match boldClose rest with
      | some (g, rest2) =>
          "<strong>".data ++ g ++ "</strong>".data ++ boldPass fuel rest2
      | none => '*' :: boldPass fuel ('*' :: rest)
  | fuel + 1, c :: rest => c :: boldPass fuel rest

/-- Pass 2: `text.replace(/\*\s(.*?)\n/g, '<p>• $1</p>')`. -/
def bulletPass : Nat → List Char → List Char
  | 0, cs => cs
  | _ + 1, [] => []
  | fuel + 1, '*' :: w :: rest =>
      if isSpaceJs w then
        match splitAtNl rest with
        | some (g, rest2) =>
            "<p>• ".data ++ g ++ "</p>".data ++ bulletPass fuel rest2
        | none => '*' :: bulletPass fuel (w :: rest)
      else '*' :: bulletPass fuel (w :: rest)
  | fuel + 1, c :: rest => c :: bulletPass fuel rest

/-- Pass 3: `text.replace(/###\s(.*?)\n/g, '<h3>$1</h3>')`. -/
def h3Pass : Nat → List Char → List Char
  | 0, cs => cs
  | _ + 1, [] => []
  | fuel + 1, '#' :: '#' :: '#' :: w :: rest =>
      if isSpaceJs w then
        match splitAtNl rest with
        | some (g, rest2) => "<h3>".data ++ g ++ "</h3>".data ++ h3Pass fuel rest2
        | none => '#' :: h3Pass fuel ('#' :: '#' :: w :: rest)
      else '#' :: h3Pass fuel ('#' :: '#' :: w :: rest)
  | fuel + 1, c :: rest => c :: h3Pass fuel rest

/-- Pass 4: `text.replace(/##\s(.*?)\n/g, '<h2>$1</h2>')`. -/
def h2Pass : Nat → List Char → List Char
  | 0, cs => cs
  | _ + 1, [] => []
  | fuel + 1, '#' :: '#' :: w :: rest =>
      if isSpaceJs w then
        match splitAtNl rest with
        | some (g, rest2) => "<h2>".data ++ g ++ "</h2>".data ++ h2Pass fuel rest2
        | none => '#' :: h2Pass fuel ('#' :: w :: rest)
      else '#' :: h2Pass fuel ('#' :: w :: rest)
  | fuel + 1, c :: rest => c :: h2Pass fuel rest

/-- Pass 5: `text.replace(/#\s(.*?)\n/g, '<h1>$1</h1>')`. -/
def h1Pass : Nat → List Char → List Char
  | 0, cs => cs
  | _ + 1, [] => []
  | fuel + 1, '#' :: w :: rest =>
      if isSpaceJs w then
        match splitAtNl rest with
        | some (g, rest2) => "<h1>".data ++ g ++ "</h1>".data ++ h1Pass fuel rest2
        | none => '#' :: h1Pass fuel (w :: rest)
      else '#' :: h1Pass fuel (w :: rest)
  | fuel + 1, c :: rest => c :: h1Pass fuel rest

/-- Pass 6: `text.replace(/(\d+)\.\s(.*?)\n/g, '<p>$1. $2</p>')`.  The
greedy `\d+` takes the maximal digit run; a shorter run cannot match
since its successor is a digit, not `.`. -/
def numPass : Nat → List Char → List Char
  | 0, cs => cs
  | _ + 1, [] => []
  | fuel + 1, c :: rest =>
      if c.isDigit then
        match (List.span Char.isDigit (c :: rest)).2 with
        | '.' :: w :: rest2 =>
            if isSpaceJs w then
              match splitAtNl rest2 with
              | some (g, rest3) =>
                  "<p>".data ++ (List.span Char.isDigit (c :: rest)).1
                    ++ ". ".data ++ g ++ "</p>".data ++ numPass fuel rest3
              | none => c :: numPass fuel rest
            else c :: numPass fuel rest
        | _ => c :: numPass fuel rest
      else c :: numPass fuel rest

/-- Character class `[^\n<>]` of the paragraph pattern. -/
def inPClass (c : Char) : Bool :=
  c != '\n' && c != '<' && c != '>'

/-- Lazy search for the terminating `\n\n` of
`/([^\n<>][^\n<>]*?)\n\n/`. -/
def paraClose : List Char → Option (List Char × List Char)
  | '\n' :: '\n' :: rest => some ([], rest)
  | c :: rest =>
      if inPClass c then (paraClose rest).map (fun p => (c :: p.1, p.2)) else none
  | [] => none

/-- Pass 7 (source comment "Add paragraph tags"):
`text.replace(/([^\n<>][^\n<>]*?)\n\n/g, '<p>$1</p>')`. -/
def paraPass : Nat → List Char → List Char
  | 0, cs => cs
  | _ + 1, [] => []
  | fuel + 1, c :: rest =>
      if inPClass c then
        match paraClose rest with
        | some (g, rest2) =>
            "<p>".data ++ (c :: g) ++ "</p>".data ++ paraPass fuel rest2
        | none => c :: paraPass fuel rest
      else c :: paraPass fuel rest

/-- Pass 8: `text.replace(/\n\n/g, '')`. -/
def nlnlPass : Nat → List Char → List Char
  | 0, cs => cs
  | _ + 1, [] => []
  | fuel + 1, '\n' :: '\n' :: rest => nlnlPass fuel rest
  | fuel + 1, c :: rest => c :: nlnlPass fuel rest

/-- Pass 9: `text.replace(/([^>])\n([^<])/g, '$1 $2')`.  The scan
resumes after each replaced match, so adjacent single newlines are not
all collapsed in one pass. -/
def sglNlPass : Nat → List Char → List Char
  | 0, cs => cs
  | _ + 1, [] => []
  | fuel + 1, a :: '\n' :: b :: rest =>
      if a != '>' && b != '<' then a :: ' ' :: b :: sglNlPass fuel rest
      else a :: sglNlPass fuel ('\n' :: b :: rest)
  | fuel + 1, c :: rest => c :: sglNlPass fuel rest

/-- `formatResponse` (mcp-server-fixed.js lines 26-51): the seven
`replace` passes in source order, each a global left-to-right scan. -/
def formatResponse (s : String) : String :=
  let l1 := boldPass s.data.length s.data
  let l2 := bulletPass l1.length l1
  let l3 := h3Pass l2.length l2
  let l4 := h2Pass l3.length l3
  let l5 := h1Pass l4.length l4
  let l6 := numPass l5.length l5
  let l7 := paraPass l6.length l6
  let l8 := nlnlPass l7.length l7
  String.mk (sglNlPass l8.length l8)

end HealthSync

namespace HealthSync

theorem splitAtNl_none (l : List Char) (h : '\n' ∉ l) : splitAtNl l = none := by
  induction l with
  | nil => rfl
  | cons c rest ih =>
    simp only [List.mem_cons, not_or] at h
    rw [splitAtNl.eq_def]
    split
    · rfl
    · simp_all
    · simp_all

theorem boldPass_id (fuel : Nat) (cs : List Char) (h : '*' ∉ cs) :
    boldPass fuel cs = cs := by
  induction fuel generalizing cs with
  | zero => rfl
  | succ n ih =>
    rw [boldPass.eq_def]
    split
    · rfl
    · rfl
    · simp_all
    · simp_all

theorem bulletPass_id (fuel : Nat) (cs : List Char) (h : '\n' ∉ cs) :
    bulletPass fuel cs = cs := by
  induction fuel generalizing cs with
  | zero => rfl
  | succ n ih =>
    rw [bulletPass.eq_def]
    split
    · rfl
    · rfl
    · simp_all [splitAtNl_none]
    · simp_all

theorem h3Pass_id (fuel : Nat) (cs : List Char) (h : '\n' ∉ cs) :
    h3Pass fuel cs = cs := by
  induction fuel generalizing cs with
  | zero => rfl
  | succ n ih =>
    rw [h3Pass.eq_def]
    split
    · rfl
    · rfl
    · simp_all [splitAtNl_none]
    · simp_all

theorem h2Pass_id (fuel : Nat) (cs : List Char) (h : '\n' ∉ cs) :
    h2Pass fuel cs = cs := by
  induction fuel generalizing cs with
  | zero => rfl
  | succ n ih =>
    rw [h2Pass.eq_def]
    split
    · rfl
    · rfl
    · simp_all [splitAtNl_none]
    · simp_all

theorem h1Pass_id (fuel : Nat) (cs : List Char) (h : '\n' ∉ cs) :
    h1Pass fuel cs = cs := by
  induction fuel generalizing cs with
  | zero => rfl
  | succ n ih =>
    rw [h1Pass.eq_def]
    split
    · rfl
    · rfl
    · simp_all [splitAtNl_none]
    · simp_all

theorem numPass_id (fuel : Nat) (cs : List Char) (h : '\n' ∉ cs) :
    numPass fuel cs = cs := by
  induction fuel generalizing cs with
  | zero => rfl
  | succ n ih =>
    rw [numPass.eq_def]
    split
    · rfl
    · rfl
    · rename_i fuel c rest heq
      by_cases hd : c.isDigit
      · have hsub : '\n' ∉ (List.span Char.isDigit (c :: rest)).2 := by
          intro hmem
          rw [List.span_eq_take_drop] at hmem
          exact h ((List.dropWhile_sublist Char.isDigit).mem hmem)
        simp only [hd, if_true]
        split
        · rename_i w rest2 heq2
          have hw : '\n' ∉ rest2 := by
            rw [heq2] at hsub
            simp only [List.mem_cons, not_or] at hsub
            exact hsub.2.2
          rw [splitAtNl_none rest2 hw]
          simp_all
        · simp_all
      · simp_all

theorem paraClose_none (l : List Char) (h : '\n' ∉ l) : paraClose l = none := by
  induction l with
  | nil => rfl
  | cons c rest ih =>
    simp only [List.mem_cons, not_or] at h
    rw [paraClose.eq_def]
    split
    · simp_all
    · simp_all
    · rfl

theorem paraPass_id (fuel : Nat) (cs : List Char) (h : '\n' ∉ cs) :
    paraPass fuel cs = cs := by
  induction fuel generalizing cs with
  | zero => rfl
  | succ n ih =>
    rw [paraPass.eq_def]
    split
    · rfl
    · rfl
    · simp_all [paraClose_none]

theorem nlnlPass_id (fuel : Nat) (cs : List Char) (h : '\n' ∉ cs) :
    nlnlPass fuel cs = cs := by
  induction fuel generalizing cs with
  | zero => rfl
  | succ n ih =>
    rw [nlnlPass.eq_def]
    split
    · rfl
    · rfl
    · simp_all
    · simp_all

theorem sglNlPass_id (fuel : Nat) (cs : List Char) (h : '\n' ∉ cs) :
    sglNlPass fuel cs = cs := by
  induction fuel generalizing cs with
  | zero => rfl
  | succ n ih =>
    rw [sglNlPass.eq_def]
    split
    · rfl
    · rfl
    · simp_all
    · simp_all

end HealthSync

namespace HealthSync

set_option maxRecDepth 8192 in
/-- Claim C3, counterexample: the formatter is not idempotent.  On
`"a\nb\nc"` one pass collapses only the first newline (the scan resumes
after the replaced match), giving `"a b\nc"`; a second pass collapses
the remaining one, giving `"a b c"`. -/
theorem formatResponse_not_idempotent :
    formatResponse (formatResponse "a\nb\nc") ≠ formatResponse "a\nb\nc" := by
  decide

/-- Claim C3 (amended): the formatter, a total function in this model
(it never throws), is passthrough-preserving on marker-free single-line
input: any string containing no newline and no asterisk is returned
unchanged.  Idempotence and the passthrough of inputs with newlines
both fail, as the counterexample shows. -/
theorem formatResponse_passthrough (s : String)
    (hnl : '\n' ∉ s.data) (hstar : '*' ∉ s.data) :
    formatResponse s = s := by
  simp only [formatResponse]
  rw [boldPass_id _ _ hstar, bulletPass_id _ _ hnl, h3Pass_id _ _ hnl,
      h2Pass_id _ _ hnl, h1Pass_id _ _ hnl, numPass_id _ _ hnl,
      paraPass_id _ _ hnl, nlnlPass_id _ _ hnl, sglNlPass_id _ _ hnl]

/-- Witness for the amended C3 on a concrete marker-free line. -/
theorem formatResponse_passthrough_witness :
    formatResponse "Take 500mg twice a day." = "Take 500mg twice a day." :=
  formatResponse_passthrough "Take 500mg twice a day." (by decide) (by decide)

end HealthSync
